import Mathlib

/-!
Verification of the conversation / tool-orchestration and emergency-escalation
engine of the smart_city_hackathon_dusseldorf repository.

The Lean definitions below are shallow embeddings of the Python source:

* `src/vj/core/ai_processor.py` — `AIProcessor.process_user_message` (history
  append + trim), `AIProcessor._parse_structured_response` and
  `AIProcessor.analyze_emergency_intent` (best-effort structured decode).
* `src/vj/core/navigation_handler.py` — safe-place catalog and priority
  selection, geocoding/routing pipeline, route formatting.
* `src/vj/core/dwani_bot.py` — `handle_emergency_situation`,
  `generate_emergency_evacuation`, `_determine_emergency_type`,
  `process_voice_command`.
* `src/sachin/assistant_v4.py` — the tool-calling chat loop of
  `chat_with_qwen3`.
* `src/sachin/travel_with_api.py` — `get_travel_information` and its static
  three-mode fallback.

External effects (the hosted LLM, the JSON decoder of the standard library,
the geocoder, the router, the transit API, speech I/O) are modelled as
explicit oracle parameters: a pure function or a trace (list) of results,
where `none` stands for the call raising an exception.  Python floats are
idealised as rationals; Python `round` (round-half-to-even) is modelled
exactly by `pyRoundHalfEven`.
-/

/-! ## Shared string helpers -/

/-- Model of Python substring containment `pat in s` on character lists:
`isPrefixChars pat l` is true when `pat` is a prefix of `l`. -/
def isPrefixChars : List Char → List Char → Bool
  | [], _ => true
  | _ :: _, [] => false
  | a :: as, b :: bs => a == b && isPrefixChars as bs

/-- `containsSub pat l` is true when `pat` occurs as a contiguous sublist of `l`. -/
def containsSub (pat : List Char) : List Char → Bool
  | [] => isPrefixChars pat []
  | c :: cs => isPrefixChars pat (c :: cs) || containsSub pat cs

/-- Model of the Python expression `pat in s` for strings. -/
def strContains (s pat : String) : Bool := containsSub pat.data s.data

/-- Model of Python `str.isspace()`: true when the string is nonempty and all
its characters are whitespace. -/
def pyIsSpace (s : String) : Bool := !s.isEmpty && s.data.all Char.isWhitespace

/-- Model of Python `str.lower()` (ASCII case mapping). -/
def pyLower (s : String) : String := ⟨s.data.map Char.toLower⟩

/-- Model of Python `str.upper()` (ASCII case mapping). -/
def pyUpper (s : String) : String := ⟨s.data.map Char.toUpper⟩

/-- Model of Python `str.strip()`: remove leading and trailing whitespace. -/
def pyStrip (s : String) : String :=
  ⟨((s.data.dropWhile Char.isWhitespace).reverse.dropWhile
      Char.isWhitespace).reverse⟩

/-- Model of Python `str.startswith(pat)`. -/
def pyStartsWith (s pat : String) : Bool := isPrefixChars pat.data s.data

/-- Model of Python `str.endswith(pat)`. -/
def pyEndsWith (s pat : String) : Bool :=
  isPrefixChars pat.data.reverse s.data.reverse

/-- Model of Python `str.replace(old, new)` for a single-character `old` and
`new` (the only form the embedded code uses). -/
def pyReplaceChar (s : String) (c d : Char) : String :=
  ⟨s.data.map fun x => if x == c then d else x⟩

/-- Model of the regex search `re.search(r'\x7b.*\x7d', s, re.DOTALL)` used by
the repository's best-effort structured decode: with a greedy dot-all `.*`, the
match (when one exists) runs from the first `\x7b` of `s` to the last `\x7d`
of `s`, and a match exists exactly when the first `\x7b` occurs strictly
before the last `\x7d`. -/
def extractBraces (s : String) : Option String :=
  let cs := s.data
  match List.findIdx? (fun c => c == '\x7b') cs,
        List.findIdx? (fun c => c == '\x7d') cs.reverse with
  | some i, some k =>
    let j := cs.length - 1 - k
    if i < j then some ⟨(cs.drop i).take (j - i + 1)⟩ else none
  | _, _ => none

/-! ## JSON values

`json.loads` may return any JSON document; the shapes this repository reads
are objects, so the decode oracles below return `Option JsonObj` where
`none` models `json.JSONDecodeError`. -/

/-- A JSON value, as produced by Python's `json.loads`. -/
inductive JVal where
  | null : JVal
  | bool : Bool → JVal
  | num : ℚ → JVal
  | str : String → JVal
  | arr : List JVal → JVal
  | obj : List (String × JVal) → JVal

/-- A decoded JSON object: an ordered association list of fields, mirroring a
Python `dict` (insertion-ordered, no duplicate keys). -/
abbrev JsonObj := List (String × JVal)

/-! ## C1 — conversation history trim (`AIProcessor.process_user_message`) -/

/-- One conversation turn of `AIProcessor.conversation_history`
(`src/vj/core/ai_processor.py`): a dict with `role` and `content` keys. -/
structure Turn where
  role : String
  content : String
deriving DecidableEq

/-- The persona prompt of `AIProcessor.system_message`
(`src/vj/core/ai_processor.py`, lines 25-52). -/
def system_prompt : String :=
"You are Dwani AI, a voice-based urban disaster assistant for smart cities. \n            \nYour core capabilities:\n- Detect and analyze hazards from the environment\n- Help users evacuate safely during emergencies\n- Provide clear navigation guidance\n- Answer questions about safety and urban navigation\n- Maintain calm, authoritative communication\n\nAlways respond with:\n1. A clear, calm voice message for the user\n2. If needed, a JSON object with structured actions\n\nResponse format:\n\x7b\n  \"speak\": \"Your voice message to the user\",\n  \"action\": \"navigate|wait|warn|analyze|none\",\n  \"direction\": \"left|right|forward|backward|none\",\n  \"distance\": \"estimated_distance_in_meters\",\n  \"urgency\": \"low|medium|high|critical\",\n  \"hazards_detected\": [\"list\", \"of\", \"hazards\"],\n  \"safe_direction\": \"direction_to_safety\"\n\x7d\n\nStay focused on safety, be concise but informative, and always prioritize user safety."

/-- `AIProcessor.system_message`: the System turn placed at index 0 of the
conversation history at construction time. -/
def system_message : Turn := ⟨"system", system_prompt⟩

/-- The trim of `AIProcessor.process_user_message`
(`src/vj/core/ai_processor.py`, lines 114-115):
`if len(h) > 21: h = [system_message] + h[-20:]`. -/
def trim_conversation (h : List Turn) : List Turn :=
  if h.length > 21 then system_message :: h.drop (h.length - 20) else h

/-- One call of `AIProcessor.process_user_message`
(`src/vj/core/ai_processor.py`, lines 84-117), restricted to its effect on
`conversation_history`.  `user_content` is the context-prefixed user string of
line 87, `reply` the outcome of the Gemini call: `some a` carries the
assistant content appended at lines 108-111 (the structured response's speak
text), `none` models `generate_content` raising, in which case the `except`
clause at line 119 returns before anything is appended. -/
def process_user_message_step (h : List Turn) (user_content : String)
    (reply : Option String) : List Turn :=
  match reply with
  | none => h
  | some assistant_content =>
      trim_conversation
        (h ++ [⟨"user", user_content⟩, ⟨"assistant", assistant_content⟩])

/-- The conversation history of an `AIProcessor` after any sequence of
`process_user_message` calls, starting from `[system_message]`
(`src/vj/core/ai_processor.py`, line 55). -/
def conversation_after (steps : List (String × Option String)) : List Turn :=
  steps.foldl (fun h s => process_user_message_step h s.1 s.2) [system_message]

/-- The invariant maintained by the trim: the history is the System turn
followed by non-System turns, and has at most 21 entries. -/
def ConversationInv (h : List Turn) : Prop :=
  (∃ rest, h = system_message :: rest ∧ ∀ t ∈ rest, t.role ≠ "system") ∧
    h.length ≤ 21

theorem trim_conversation_inv (h : List Turn)
    (hStruct : ∃ rest, h = system_message :: rest ∧
      ∀ t ∈ rest, t.role ≠ "system") :
    ConversationInv (trim_conversation h) := by
  obtain ⟨rest, hEq, hAll⟩ := hStruct
  subst hEq
  unfold trim_conversation
  by_cases hLen : (system_message :: rest).length > 21
  · rw [if_pos hLen]
    have hdrop :
        (system_message :: rest).drop ((system_message :: rest).length - 20) =
          rest.drop ((system_message :: rest).length - 20 - 1) := by
      have h1 : (system_message :: rest).length - 20 =
          ((system_message :: rest).length - 20 - 1) + 1 := by
        simp only [List.length_cons] at hLen ⊢
        omega
      rw [h1, List.drop_succ_cons]
      congr 1
    constructor
    · refine ⟨_, rfl, ?_⟩
      intro t ht
      rw [hdrop] at ht
      exact hAll _ (List.drop_subset _ rest ht)
    · simp only [List.length_cons, List.length_drop] at hLen ⊢
      omega
  · rw [if_neg hLen]
    refine ⟨⟨rest, rfl, hAll⟩, ?_⟩
    omega

theorem process_user_message_step_inv (h : List Turn)
    (hInv : ConversationInv h) (u : String) (r : Option String) :
    ConversationInv (process_user_message_step h u r) := by
  obtain ⟨⟨rest, hEq, hAll⟩, hLen⟩ := hInv
  cases r with
  | none => exact ⟨⟨rest, hEq, hAll⟩, hLen⟩
  | some a =>
    apply trim_conversation_inv
    refine ⟨rest ++ [⟨"user", u⟩, ⟨"assistant", a⟩], ?_, ?_⟩
    · rw [hEq]; simp
    · intro t ht
      rcases List.mem_append.mp ht with hr | hnew
      · exact hAll _ hr
      · rcases List.mem_cons.mp hnew with h1 | h2
        · subst h1; simp
        · rcases List.mem_cons.mp h2 with h1 | h1
          · subst h1; simp
          · simp at h1

theorem foldl_steps_inv (steps : List (String × Option String)) :
    ∀ h, ConversationInv h →
      ConversationInv
        (steps.foldl (fun h s => process_user_message_step h s.1 s.2) h) := by
  induction steps with
  | nil => intro h hI; exact hI
  | cons s rest ih =>
    intro h hI
    exact ih _ (process_user_message_step_inv h hI s.1 s.2)

theorem conversation_after_inv (steps : List (String × Option String)) :
    ConversationInv (conversation_after steps) :=
  foldl_steps_inv steps [system_message]
    ⟨⟨[], rfl, by intro t ht; simp at ht⟩, by simp⟩

/-- **C1.** For every sequence of user-message exchanges processed by
`AIProcessor.process_user_message`, the conversation history after the
automatic trim always starts with exactly one System turn — the system
message at index 0 appears once and is never dropped — and its total length
is at most `K + 1 = 21` entries (`src/vj/core/ai_processor.py`, lines 54-55
and 107-117). -/
theorem conversation_trim_invariant (steps : List (String × Option String)) :
    (conversation_after steps).head? = some system_message ∧
    (conversation_after steps).countP (fun t => t.role == "system") = 1 ∧
    (conversation_after steps).length ≤ 21 := by
  obtain ⟨⟨rest, hEq, hAll⟩, hLen⟩ := conversation_after_inv steps
  refine ⟨by rw [hEq]; rfl, ?_, hLen⟩
  rw [hEq]
  rw [List.countP_cons]
  have hrest : rest.countP (fun t => t.role == "system") = 0 := by
    rw [List.countP_eq_zero]
    intro t ht
    simpa using hAll t ht
  simp [hrest, system_message]

/-! ## C3 / C5 — the tool-calling chat loop of `chat_with_qwen3`
(`src/sachin/assistant_v4.py`) -/

/-- A tool call returned by the chat model (`tool_call` objects of the OpenAI
reply).  `arguments` models the JSON-decoded `tool_call.function.arguments`
object of line 179 as an association list of string-valued fields. -/
structure ToolCall where
  name : String
  arguments : List (String × String)
  id : String
deriving DecidableEq

/-- One entry of the `messages` list of `chat_with_qwen3`: a dict with
`role`, `content` and, for tool results, `tool_call_id`. -/
structure Msg where
  role : String
  content : String
  tool_call_id : Option String
deriving DecidableEq

/-- One reply of the chat capability: `response.choices[0].message`, with its
`content` and its (possibly empty) `tool_calls` list. -/
structure ChatReply where
  content : String
  tool_calls : List ToolCall
deriving DecidableEq

/-- `args.get("timezone", "Europe/Berlin")` of `src/sachin/assistant_v4.py`,
line 180. -/
def argTimezone (args : List (String × String)) : String :=
  match args.lookup "timezone" with
  | some tz => tz
  | none => "Europe/Berlin"

/-- The tool-dispatch loop of `chat_with_qwen3`
(`src/sachin/assistant_v4.py`, lines 177-187): for each tool call,
`get_current_time` and `capture_webcam_image` append one `role="tool"`
message carrying `tool_call.id`, while any other name only prints
`Unknown tool` and appends nothing.  `timeDump tz` models
`json.dumps(get_current_time(tz))` and `imageDump` models
`json.dumps(capture_webcam_image())`. -/
def handle_tool_calls (timeDump : String → String) (imageDump : String)
    (messages : List Msg) (tool_calls : List ToolCall) : List Msg :=
  tool_calls.foldl
    (fun ms tc =>
      if tc.name == "get_current_time" then
        ms ++ [⟨"tool", timeDump (argTimezone tc.arguments), some tc.id⟩]
      else if tc.name == "capture_webcam_image" then
        ms ++ [⟨"tool", imageDump, some tc.id⟩]
      else ms)
    messages

/-- A tool call whose name is registered in the `tools` list of
`src/sachin/assistant_v4.py` (only `get_current_time` and
`capture_webcam_image` are). -/
def registered_tool (tc : ToolCall) : Bool :=
  tc.name == "get_current_time" || tc.name == "capture_webcam_image"

/-- The Tool turn that `handle_tool_calls` appends for a registered tool
call. -/
def tool_turn (timeDump : String → String) (imageDump : String)
    (tc : ToolCall) : Msg :=
  if tc.name == "get_current_time" then
    ⟨"tool", timeDump (argTimezone tc.arguments), some tc.id⟩
  else ⟨"tool", imageDump, some tc.id⟩

theorem handle_tool_calls_eq (timeDump : String → String) (imageDump : String)
    (messages : List Msg) (tool_calls : List ToolCall) :
    handle_tool_calls timeDump imageDump messages tool_calls =
      messages ++
        (tool_calls.filter registered_tool).map (tool_turn timeDump imageDump) := by
  induction tool_calls generalizing messages with
  | nil => simp [handle_tool_calls]
  | cons tc rest ih =>
    simp only [handle_tool_calls, List.foldl_cons] at ih ⊢
    by_cases h1 : tc.name == "get_current_time"
    · rw [if_pos h1]
      rw [ih]
      have hreg : registered_tool tc = true := by
        simp [registered_tool, h1]
      simp [List.filter_cons, hreg, tool_turn, h1]
    · rw [if_neg h1]
      by_cases h2 : tc.name == "capture_webcam_image"
      · rw [if_pos h2]
        rw [ih]
        have hreg : registered_tool tc = true := by
          simp only [registered_tool]
          rw [Bool.or_eq_true]
          right
          exact h2
        have hturn : tool_turn timeDump imageDump tc =
            ⟨"tool", imageDump, some tc.id⟩ := by
          simp [tool_turn, h1]
        simp [List.filter_cons, hreg, hturn]
      · rw [if_neg h2]
        rw [ih]
        have hreg : registered_tool tc = false := by
          simp only [registered_tool]
          rw [Bool.or_eq_false_iff]
          constructor
          · exact Bool.eq_false_iff.mpr h1
          · exact Bool.eq_false_iff.mpr h2
        simp [List.filter_cons, hreg]

/-- The tool call named `get_travel_information`: this name is declared in
other scripts of the repository but is not registered in
`src/sachin/assistant_v4.py`, whose dispatch only knows `get_current_time`
and `capture_webcam_image`. -/
def unknown_tool_call : ToolCall := ⟨"get_travel_information", [], "call_7"⟩

/-- **C3 counterexample.** A Chat reply issuing exactly one tool call whose
name is not registered produces zero Tool turns (the `else` branch at
lines 186-187 of `src/sachin/assistant_v4.py` only prints), not the one
error-payload Tool turn the claim promises. -/
theorem unknown_tool_appends_no_turn :
    handle_tool_calls (fun _ => "t") "img" [] [unknown_tool_call] = [] ∧
      [unknown_tool_call].length = 1 := ⟨rfl, rfl⟩

/-- **C3 (amended).** For every Chat reply, the Tool turns appended to the
conversation before the follow-up Chat call are exactly one `role="tool"`
message per tool call whose name is registered (`get_current_time` or
`capture_webcam_image`), in order, each carrying the same `call_id` as its
ToolCall; a ToolCall whose name is not registered appends no Tool turn at
all (`src/sachin/assistant_v4.py`, lines 176-187). -/
theorem tool_turns_match_registered_calls (timeDump : String → String)
    (imageDump : String) (messages : List Msg) (tool_calls : List ToolCall) :
    ((handle_tool_calls timeDump imageDump messages tool_calls).drop
        messages.length =
      (tool_calls.filter registered_tool).map (tool_turn timeDump imageDump)) ∧
    ((handle_tool_calls timeDump imageDump messages tool_calls).drop
        messages.length).length =
      (tool_calls.filter registered_tool).length ∧
    ∀ tc ∈ tool_calls.filter registered_tool,
      (tool_turn timeDump imageDump tc).role = "tool" ∧
      (tool_turn timeDump imageDump tc).tool_call_id = some tc.id := by
  rw [handle_tool_calls_eq]
  refine ⟨by simp, by simp, ?_⟩
  intro tc _
  unfold tool_turn
  by_cases h1 : tc.name == "get_current_time"
  · rw [if_pos h1]; exact ⟨rfl, rfl⟩
  · rw [if_neg h1]; exact ⟨rfl, rfl⟩

/-- The body of one user turn of `chat_with_qwen3` after a non-blank prompt
has been obtained (`src/sachin/assistant_v4.py`, lines 163-203).  The Chat
capability is modelled as a trace `replies` consumed one entry per
`chat.completions.create` call; `some r` is a returned reply, `none` a call
that raises (the surrounding `except` then `continue`s, keeping whatever was
already appended to `messages`).  Returns the updated `messages` and the
unconsumed remainder of the trace, so that the number of Chat calls issued in
the turn is the number of trace entries consumed.  Faithful points: the user
message is appended before the first call; when the first reply carries tool
calls, the dispatch loop appends the Tool turns and exactly one follow-up
call is issued, whose reply's `content` is appended as the assistant turn
with any further tool calls ignored. -/
def process_prompt (timeDump : String → String) (imageDump : String)
    (replies : List (Option ChatReply)) (messages : List Msg)
    (prompt : String) : List Msg × List (Option ChatReply) :=
  let ms := messages ++ [⟨"user", prompt, none⟩]
  match replies with
  | [] => (ms, [])
  | none :: rest => (ms, rest)
  | some reply :: rest =>
    if reply.tool_calls.isEmpty then
      (ms ++ [⟨"assistant", reply.content, none⟩], rest)
    else
      let ms := handle_tool_calls timeDump imageDump ms reply.tool_calls
      match rest with
      | [] => (ms, [])
      | none :: rest2 => (ms, rest2)
      | some reply2 :: rest2 =>
        (ms ++ [⟨"assistant", reply2.content, none⟩], rest2)

/-- **C5.** For every user turn of `chat_with_qwen3`, the number of Chat
capability calls (trace entries consumed) is at most 2; and whenever the
first Chat reply contains ToolCalls and the trace offers a second entry, the
orchestrator issues exactly one additional Chat call after appending the Tool
turns — never more (`src/sachin/assistant_v4.py`, lines 167-203). -/
theorem chat_calls_per_turn_bounded (timeDump : String → String)
    (imageDump : String) (replies : List (Option ChatReply))
    (messages : List Msg) (prompt : String) :
    replies.length -
        (process_prompt timeDump imageDump replies messages prompt).2.length ≤ 2 ∧
    (∀ r1 o2 rest, replies = some r1 :: o2 :: rest →
      r1.tool_calls.isEmpty = false →
      replies.length -
        (process_prompt timeDump imageDump replies messages prompt).2.length = 2) := by
  constructor
  · match replies with
    | [] => simp [process_prompt]
    | none :: rest => simp [process_prompt]
    | some reply :: rest =>
      by_cases hE : reply.tool_calls.isEmpty
      · simp [process_prompt, hE]
      · match rest with
        | [] => simp [process_prompt, hE]
        | none :: rest2 =>
          simp only [process_prompt, hE, if_false, Bool.false_eq_true,
            List.length_cons]
          omega
        | some reply2 :: rest2 =>
          simp only [process_prompt, hE, if_false, Bool.false_eq_true,
            List.length_cons]
          omega
  · intro r1 o2 rest hrep hTc
    subst hrep
    match o2 with
    | none =>
      simp only [process_prompt, hTc, if_false, Bool.false_eq_true,
        List.length_cons]
      omega
    | some reply2 =>
      simp only [process_prompt, hTc, if_false, Bool.false_eq_true,
        List.length_cons]
      omega

/-- **C5 witness.** A concrete turn whose first reply issues one tool call:
the trace of two replies is fully consumed, i.e. exactly two Chat calls. -/
theorem chat_calls_per_turn_bounded_witness :
    ([some ⟨"calling", [⟨"get_current_time", [("timezone", "Europe/Berlin")], "c1"⟩]⟩,
        some ⟨"done", []⟩] : List (Option ChatReply)).length -
      (process_prompt (fun _ => "t") "img"
        [some ⟨"calling", [⟨"get_current_time", [("timezone", "Europe/Berlin")], "c1"⟩]⟩,
         some ⟨"done", []⟩] [] "hi").2.length = 2 :=
  (chat_calls_per_turn_bounded (fun _ => "t") "img" _ [] "hi").2
    ⟨"calling", [⟨"get_current_time", [("timezone", "Europe/Berlin")], "c1"⟩]⟩
    (some ⟨"done", []⟩) [] rfl rfl

/-! ## C4 — safe-place catalog and priority selection
(`src/vj/core/navigation_handler.py`) -/

/-- One entry of the `NavigationHandler.safe_places` catalog
(`src/vj/core/navigation_handler.py`, lines 16-59). -/
structure SafePlace where
  name : String
  address : String
  type : String
  capacity : String
  services : List String
deriving DecidableEq

def hospital_place : SafePlace :=
  ⟨"University Hospital Düsseldorf", "Moorenstraße 5, 40225 Düsseldorf",
   "hospital", "large", ["emergency", "trauma", "burn_unit"]⟩

def fire_station_place : SafePlace :=
  ⟨"Fire Station Düsseldorf Central", "Berger Allee 25, 40213 Düsseldorf",
   "fire_station", "medium", ["fire_emergency", "rescue"]⟩

def police_station_place : SafePlace :=
  ⟨"Police Station Düsseldorf", "Jürgensplatz 1, 40219 Düsseldorf",
   "police", "medium", ["security", "emergency_response"]⟩

def shelter_place : SafePlace :=
  ⟨"Emergency Shelter Düsseldorf", "Königsallee 92, 40212 Düsseldorf",
   "shelter", "large", ["temporary_housing", "basic_needs"]⟩

def train_station_place : SafePlace :=
  ⟨"Düsseldorf Hauptbahnhof", "Konrad-Adenauer-Platz 14, 40210 Düsseldorf",
   "transportation", "large", ["evacuation", "transport"]⟩

def park_place : SafePlace :=
  ⟨"Hofgarten Park", "Hofgarten, 40213 Düsseldorf",
   "open_space", "very_large", ["safe_assembly", "fresh_air"]⟩

/-- `NavigationHandler.safe_places`: the fixed catalog built in `__init__`,
as an association list in dict insertion order. -/
def safe_places : List (String × SafePlace) :=
  [("hospital", hospital_place),
   ("fire_station", fire_station_place),
   ("police_station", police_station_place),
   ("shelter", shelter_place),
   ("train_station", train_station_place),
   ("park", park_place)]

/-- The per-emergency-type priority lists of
`NavigationHandler.get_nearest_safe_place`
(`src/vj/core/navigation_handler.py`, lines 176-184):
`priority_map.get(emergency_type, priority_map["general"])`, so the explicit
`"general"` key and every unknown type both yield the general list. -/
def priority_map (emergency_type : String) : List String :=
  if emergency_type = "fire" then ["fire_station", "park", "shelter"]
  else if emergency_type = "medical" then ["hospital", "fire_station", "shelter"]
  else if emergency_type = "structural" then ["park", "shelter", "train_station"]
  else if emergency_type = "chemical" then ["hospital", "fire_station", "park"]
  else ["shelter", "park", "train_station"]

/-- `NavigationHandler.get_nearest_safe_place`
(`src/vj/core/navigation_handler.py`, lines 164-191): return the first entry
of the priority list present in the catalog, else `None`.  The catalog is a
parameter standing for `self.safe_places` (initialised to `safe_places`);
`current_location` is accepted but unused, as in the source. -/
def get_nearest_safe_place (catalog : List (String × SafePlace))
    (current_location emergency_type : String) : Option SafePlace :=
  (priority_map emergency_type).findSome? (fun place_key => catalog.lookup place_key)

/-- **C4 counterexample.** A non-empty catalog containing only the hospital,
with emergency type `fire`: no entry of the fire priority list
(`fire_station`, `park`, `shelter`) is present, so the selection returns
`none` even though the catalog is not empty — refuting "it fails to produce a
safe place only when the catalog itself is empty". -/
theorem nonempty_catalog_can_fail :
    get_nearest_safe_place [("hospital", hospital_place)] "Heinrich-Heine-Allee" "fire" = none ∧
      ([("hospital", hospital_place)] : List (String × SafePlace)) ≠ [] :=
  ⟨rfl, by simp⟩

/-- **C4 (amended).** The selection returns the first entry of the
per-emergency-type priority list (`fire` → fire station, park/open space,
shelter; unknown types fall back to the general list) that is present in the
catalog.  With the built-in catalog of `NavigationHandler.__init__`, every
emergency type yields some SafePlace — in particular `fire` yields the fire
station; but for an arbitrary non-empty catalog the selection can return
`none` when no priority-list entry is present. -/
theorem builtin_catalog_always_selects (current_location emergency_type : String) :
    (get_nearest_safe_place safe_places current_location emergency_type).isSome = true ∧
    (emergency_type = "fire" →
      get_nearest_safe_place safe_places current_location emergency_type =
        some fire_station_place) := by
  constructor
  · unfold get_nearest_safe_place priority_map
    split
    · rfl
    · split
      · rfl
      · split
        · rfl
        · split
          · rfl
          · rfl
  · intro h
    subst h
    rfl

/-- **C4 witness.** The amended theorem applied at emergency type `fire`. -/
theorem builtin_catalog_always_selects_witness :
    (get_nearest_safe_place safe_places "Heinrich-Heine-Allee" "fire").isSome = true ∧
      get_nearest_safe_place safe_places "Heinrich-Heine-Allee" "fire" =
        some fire_station_place :=
  ⟨(builtin_catalog_always_selects "Heinrich-Heine-Allee" "fire").1,
   (builtin_catalog_always_selects "Heinrich-Heine-Allee" "fire").2 rfl⟩

/-! ## Routing pipeline (`src/vj/core/navigation_handler.py`,
`src/vj/core/dwani_bot.py`) -/

/-- A `(longitude, latitude)` pair as returned by
`NavigationHandler.geocode_address`; floats idealised as rationals. -/
abbrev Coord := ℚ × ℚ

/-- Python's built-in `round` on a rational: round half to even. -/
def pyRoundHalfEven (q : ℚ) : Int :=
  let f := ⌊q⌋
  if q - f < 1 / 2 then f
  else if q - f > 1 / 2 then f + 1
  else if f % 2 = 0 then f else f + 1

/-- Python `round(q, 1)`: round to one decimal place, half to even. -/
def pyRound1 (q : ℚ) : ℚ := (pyRoundHalfEven (q * 10) : ℚ) / 10

/-- Python `str.title()` restricted to ASCII letters: uppercase every letter
that follows a non-letter, lowercase the others. -/
def pyTitleAux : Bool → List Char → List Char
  | _, [] => []
  | prevAlpha, c :: cs =>
    if c.isAlpha then
      (if prevAlpha then c.toLower else c.toUpper) :: pyTitleAux true cs
    else c :: pyTitleAux false cs

/-- Python `str.title()`. -/
def pyTitle (s : String) : String := ⟨pyTitleAux false s.data⟩

/-- Decimal rendering of the one-decimal rationals produced by `pyRound1`
(model of the f-string rendering of a Python float `round(x, 1)`; faithful
for the non-negative values arising here). -/
def formatTenths (q : ℚ) : String :=
  let n : Int := ⌊q * 10⌋
  toString (n / 10) ++ "." ++ toString (Int.natAbs (n % 10))

/-- One raw step of an OpenRouteService segment, with the fields
`parse_route_steps` reads (`distance`, `duration`, `instruction`). -/
structure RouteStep where
  distance : ℚ
  duration : ℚ
  instruction : String

/-- The `summary` object of an OpenRouteService route. -/
structure RouteSummary where
  distance : ℚ
  duration : ℚ

/-- One entry of `route_data["routes"]`: its segments (each a list of steps)
and its summary. -/
structure RouteEntry where
  segments : List (List RouteStep)
  summary : RouteSummary

/-- The JSON body returned by the Router capability
(`NavigationHandler.get_directions`). -/
structure RouteData where
  routes : List RouteEntry

/-- One parsed step as built by `NavigationHandler.parse_route_steps`
(`src/vj/core/navigation_handler.py`, lines 145-156); the pass-through
`maneuver` / `way_points` payloads are omitted. -/
structure ParsedStep where
  step_number : Nat
  instruction : String
  distance_meters : Int
  duration_minutes : ℚ

/-- `NavigationHandler.parse_route_steps`
(`src/vj/core/navigation_handler.py`, lines 131-162): enumerate
`routes[0].segments[0].steps` from 1, rounding each distance to the nearest
meter and each duration to one decimal minute; a missing route or segment
(`KeyError`/`IndexError`) yields `[]`. -/
def parse_route_steps (route_data : RouteData) : List ParsedStep :=
  match route_data.routes with
  | [] => []
  | r :: _ =>
    match r.segments with
    | [] => []
    | seg :: _ =>
      (seg.enum).map (fun p =>
        ⟨p.1 + 1, p.2.instruction, pyRoundHalfEven p.2.distance,
         pyRound1 (p.2.duration / 60)⟩)

/-- The route dict assembled by
`NavigationHandler.generate_evacuation_route` on success
(`src/vj/core/navigation_handler.py`, lines 233-242). -/
structure RouteInfo where
  safe_place : SafePlace
  origin : String
  destination : String
  total_distance_meters : Int
  total_duration_minutes : ℚ
  steps : List ParsedStep
  emergency_type : String
  route_data : RouteData

/-- `NavigationHandler.generate_evacuation_route`
(`src/vj/core/navigation_handler.py`, lines 193-246).  `geocode` models
`self.geocode_address` (`none` = no result or error), `directions` models
`self.get_directions` (`none` = missing API key, non-success response or
error).  Both endpoints are geocoded; if either lookup is `none`, or the
router fails, or the route body has no `routes` entry (a `KeyError` caught by
the outer `except`), the function returns `None`. -/
def generate_evacuation_route (geocode : String → Option Coord)
    (directions : Coord → Coord → Option RouteData)
    (current_location emergency_type : String) : Option RouteInfo :=
  match get_nearest_safe_place safe_places current_location emergency_type with
  | none => none
  | some safe_place =>
    match geocode current_location, geocode safe_place.address with
    | some origin_coords, some dest_coords =>
      match directions origin_coords dest_coords with
      | none => none
      | some route_data =>
        match route_data.routes with
        | [] => none
        | r :: _ =>
          some ⟨safe_place, current_location, safe_place.address,
                pyRoundHalfEven r.summary.distance,
                pyRound1 (r.summary.duration / 60),
                parse_route_steps route_data, emergency_type, route_data⟩
    | _, _ => none

/-- The per-step line of `NavigationHandler.format_route_instructions`
(`src/vj/core/navigation_handler.py`, lines 272-274). -/
def format_step (s : ParsedStep) : String :=
  toString s.step_number ++ ". " ++ s.instruction ++ " (" ++
    toString s.distance_meters ++ " m, ~" ++ formatTenths s.duration_minutes ++
    " min)\n"

/-- `NavigationHandler.format_route_instructions`
(`src/vj/core/navigation_handler.py`, lines 248-285): voice-formatted route,
limited to the first 10 steps. -/
def format_route_instructions (route_info : RouteInfo) : String :=
  let sp := route_info.safe_place
  let steps := route_info.steps
  "🚨 EMERGENCY EVACUATION ROUTE 🚨\n\n" ++
    "Destination: " ++ sp.name ++ "\n" ++
    "Address: " ++ sp.address ++ "\n" ++
    "Type: " ++ pyTitle (pyReplaceChar sp.type '_' ' ') ++ "\n" ++
    "Total Distance: " ++ toString route_info.total_distance_meters ++ " meters\n" ++
    "Estimated Time: " ++ formatTenths route_info.total_duration_minutes ++ " minutes\n\n" ++
    "Step-by-step instructions:\n" ++
    String.join ((steps.take 10).map format_step) ++
    (if steps.length > 10 then
      "... and " ++ toString (steps.length - 10) ++ " more steps\n"
     else "") ++
    "\n⚠️ Follow these directions carefully and stay calm."

/-- The static fallback of `DwaniAIBot.generate_emergency_evacuation`
(`src/vj/core/dwani_bot.py`, line 310), spoken when no route could be
generated. -/
def no_route_fallback : String :=
  "⚠️ Could not generate evacuation route. Please evacuate to the nearest safe location."

/-- `DwaniAIBot.generate_emergency_evacuation`
(`src/vj/core/dwani_bot.py`, lines 292-322): plan an evacuation route and
format it; on a `None` route, return the static fallback text.  The
`current_location` parameter defaults to "Heinrich-Heine-Allee, Düsseldorf"
at every call site.  The text-to-speech side effect of line 316 is outside
the model. -/
def generate_emergency_evacuation (geocode : String → Option Coord)
    (directions : Coord → Coord → Option RouteData)
    (emergency_type current_location : String) : String :=
  match generate_evacuation_route geocode directions current_location emergency_type with
  | none => no_route_fallback
  | some route_info => format_route_instructions route_info

/-! ## C2 — geocoder-failure fallback
(`src/vj/core/dwani_bot.py`, `src/sachin/travel_with_api.py`) -/

/-- One trip of the transit API response body read by
`get_travel_information` (`src/sachin/travel_with_api.py`, lines 188-201);
each field is optional, defaulted via `dict.get`. -/
structure Trip where
  mode : Option String
  line : Option String
  origin : Option String
  destination : Option String
  departure_time : Option String
  arrival_time : Option String
  duration : Option String
  delay : Option String

/-- One travel option of `get_travel_information`'s result. -/
structure TravelOption where
  mode : String
  details : String
  source : String
deriving DecidableEq

/-- The result dict of `get_travel_information`. -/
structure TravelInfo where
  start_location : String
  end_location : String
  options : List TravelOption
deriving DecidableEq

/-- The static three-mode fallback of `get_travel_information`
(`src/sachin/travel_with_api.py`, lines 213-239 and 246-271; both copies are
identical). -/
def fallback_travel_options (start_location end_location : String) :
    List TravelOption :=
  [⟨"Public Transport",
    "From " ++ start_location ++
      ", find the nearest tram or bus stop using the Rheinbahn app. " ++
      "Common lines to Düsseldorf HBF include trams 706, 709, or buses 723, 732. " ++
      "Travel time: ~10-20 minutes. Check real-time schedules via www.rheinbahn.de.",
    "General knowledge of Düsseldorf public transport (Rheinbahn)"⟩,
   ⟨"Walking",
    "Walk from " ++ start_location ++ " to " ++ end_location ++
      ". Use a navigation app to estimate distance and time (typically 15-30 minutes for 1-2 km). " ++
      "Follow major roads like Königsallee or Berliner Allee if in central Düsseldorf.",
    "General navigation advice"⟩,
   ⟨"Taxi/Uber",
    "Book a taxi or Uber from " ++ start_location ++ " to " ++ end_location ++
      ". Travel time: ~10-15 minutes depending on traffic. Estimated cost: €10-15.",
    "Estimated based on typical taxi fares in Düsseldorf"⟩]

/-- `get_travel_information` (`src/sachin/travel_with_api.py`,
lines 170-272).  `apiResponse` models the `requests.get` call to the transit
API: `none` when the request raises, `some (status, trips)` for a response
with the given status code and (for 200) the decoded `data["trips"]` list.  A
non-200 status or an exception yields the static three-mode fallback. -/
def get_travel_information (apiResponse : Option (Nat × List Trip))
    (start_location end_location : String) : TravelInfo :=
  match apiResponse with
  | none => ⟨start_location, end_location,
             fallback_travel_options start_location end_location⟩
  | some (status, trips) =>
    if status == 200 then
      ⟨start_location, end_location,
       trips.map (fun trip =>
         ⟨trip.mode.getD "Public Transport",
          "Take " ++ trip.line.getD "unknown line" ++ " from " ++
            trip.origin.getD start_location ++ " to " ++
            trip.destination.getD end_location ++ ". Departure: " ++
            trip.departure_time.getD "N/A" ++ ", Arrival: " ++
            trip.arrival_time.getD "N/A" ++ ", Duration: " ++
            trip.duration.getD "N/A" ++ ". Delays: " ++ trip.delay.getD "None",
          "Rheinbahn/VRR API"⟩)⟩
    else ⟨start_location, end_location,
          fallback_travel_options start_location end_location⟩

/-- **C2 counterexample.** With a Geocoder returning null for every address
(hence for both endpoints), the evacuation path of
`DwaniAIBot.generate_emergency_evacuation` yields the static fallback
"Could not generate evacuation route…", and that text contains none of the
three travel modes Public Transport, Walking, Taxi/Uber — refuting the
claim's description of the fallback text.  (The three-mode text lives in
`get_travel_information`, whose trigger is a transit-API failure, not a
geocoder null.) -/
theorem geocoder_null_fallback_lacks_modes :
    generate_emergency_evacuation (fun _ => none) (fun _ _ => none)
        "fire" "Heinrich-Heine-Allee, Düsseldorf" = no_route_fallback ∧
    strContains no_route_fallback "Public Transport" = false ∧
    strContains no_route_fallback "Walking" = false ∧
    strContains no_route_fallback "Taxi/Uber" = false :=
  ⟨rfl, rfl, rfl, rfl⟩

/-- **C2 (amended).** Whenever the Geocoder returns null for the origin or
for the selected safe place's address, the evacuation planning path yields
the static fallback text "⚠️ Could not generate evacuation route. Please
evacuate to the nearest safe location." and never raises to the caller (the
model is a total function); that text does not contain the three travel
modes.  The three-mode static fallback {Public Transport, Walking,
Taxi/Uber} belongs to `get_travel_information` and is produced there
whenever the transit-API call fails or returns a non-200 status. -/
theorem geocoder_null_yields_static_fallback (geocode : String → Option Coord)
    (directions : Coord → Coord → Option RouteData)
    (current_location emergency_type : String)
    (api : Option (Nat × List Trip)) (start_location end_location : String)
    (hgeo : geocode current_location = none ∨
      ∀ sp, get_nearest_safe_place safe_places current_location emergency_type =
        some sp → geocode sp.address = none)
    (hapi : api = none ∨ ∀ st trips, api = some (st, trips) → st ≠ 200) :
    generate_emergency_evacuation geocode directions emergency_type
        current_location = no_route_fallback ∧
    (get_travel_information api start_location end_location).options.map
        TravelOption.mode = ["Public Transport", "Walking", "Taxi/Uber"] := by
  constructor
  · unfold generate_emergency_evacuation
    have hroute : generate_evacuation_route geocode directions
        current_location emergency_type = none := by
      unfold generate_evacuation_route
      cases hsp : get_nearest_safe_place safe_places current_location
          emergency_type with
      | none => rfl
      | some sp =>
        rcases hgeo with hg | hg
        · cases hd : geocode sp.address <;> simp [hg, hd]
        · cases ho : geocode current_location <;> simp [hg sp hsp, ho]
    rw [hroute]
  · rcases hapi with h | h
    · subst h
      rfl
    · match hA : api with
      | none => rfl
      | some (st, trips) =>
        have hne : (st == 200) = false :=
          beq_eq_false_iff_ne.mpr (h st trips rfl)
        simp [get_travel_information, hne, fallback_travel_options]

/-- **C2 witness.** The amended theorem at a fully failing geocoder and a
raising transit API. -/
theorem geocoder_null_yields_static_fallback_witness :
    generate_emergency_evacuation (fun _ => none) (fun _ _ => none)
        "flood" "Königsallee 1, Düsseldorf" = no_route_fallback ∧
    (get_travel_information none "Königsallee 1, Düsseldorf"
        "Düsseldorf HBF").options.map TravelOption.mode =
      ["Public Transport", "Walking", "Taxi/Uber"] :=
  geocoder_null_yields_static_fallback (fun _ => none) (fun _ _ => none)
    "Königsallee 1, Düsseldorf" "flood" none "Königsallee 1, Düsseldorf"
    "Düsseldorf HBF" (Or.inl rfl) (Or.inl rfl)

/-! ## C9 — emergency handling gates evacuation on urgency
(`src/vj/core/dwani_bot.py`) -/

/-- `DwaniAIBot.handle_emergency_situation`
(`src/vj/core/dwani_bot.py`, lines 259-290): for `high`/`critical` urgency,
build the alert, invoke the Evacuation Planner (whose non-empty result is
always appended), and speak it; otherwise only a caution warning is produced.
Speech side effects are outside the model.  The default current location
"Heinrich-Heine-Allee, Düsseldorf" is the one used by
`generate_emergency_evacuation` at this call site. -/
def handle_emergency_situation (geocode : String → Option Coord)
    (directions : Coord → Coord → Option RouteData)
    (emergency_type urgency_level : String) : String :=
  if urgency_level = "high" ∨ urgency_level = "critical" then
    let response := "🚨 EMERGENCY ALERT: " ++ pyUpper emergency_type ++
      " detected! " ++ "Evacuate immediately and call emergency services."
    let evacuation_route := generate_emergency_evacuation geocode directions
      emergency_type "Heinrich-Heine-Allee, Düsseldorf"
    if evacuation_route.isEmpty then response
    else response ++ "\n\n" ++ evacuation_route
  else
    "⚠️ Warning: " ++ emergency_type ++ " detected. Please proceed with caution."

/-- **C9.** For every emergency type, if the urgency level is neither `high`
nor `critical`, `handle_emergency_situation` returns exactly the caution
warning message; the right-hand side does not depend on the geocoder or
router oracles, so the Evacuation Planner is never invoked and no evacuation
route is included in the response (`src/vj/core/dwani_bot.py`,
lines 272-285). -/
theorem low_urgency_skips_evacuation (geocode : String → Option Coord)
    (directions : Coord → Coord → Option RouteData)
    (emergency_type urgency_level : String)
    (h : ¬(urgency_level = "high" ∨ urgency_level = "critical")) :
    handle_emergency_situation geocode directions emergency_type urgency_level =
      "⚠️ Warning: " ++ emergency_type ++
        " detected. Please proceed with caution." := by
  unfold handle_emergency_situation
  rw [if_neg h]

/-- **C9 witness.** Medium urgency with type `fire`: only the caution
warning, even under a live-looking router oracle. -/
theorem low_urgency_skips_evacuation_witness :
    handle_emergency_situation (fun _ => some (1, 1))
        (fun _ _ => some ⟨[⟨[[⟨100, 60, "Walk north"⟩]], ⟨100, 60⟩⟩]⟩)
        "fire" "medium" =
      "⚠️ Warning: " ++ "fire" ++ " detected. Please proceed with caution." :=
  low_urgency_skips_evacuation (fun _ => some (1, 1))
    (fun _ _ => some ⟨[⟨[[⟨100, 60, "Walk north"⟩]], ⟨100, 60⟩⟩]⟩)
    "fire" "medium" (by simp)

/-! ## C10 — emergency-type classification from detected disasters
(`src/vj/core/dwani_bot.py`) -/

/-- `DwaniAIBot._determine_emergency_type`
(`src/vj/core/dwani_bot.py`, lines 232-257): join the detected-disaster
strings with spaces, lowercase, and test keyword substrings in a fixed
order. -/
def determine_emergency_type (disasters_detected : List String) : String :=
  let disasters_text := pyLower (String.intercalate " " disasters_detected)
  if ["fire", "smoke", "flame"].any (fun w => strContains disasters_text w) then
    "fire"
  else if ["flood", "water", "overflow"].any (fun w => strContains disasters_text w) then
    "flood"
  else if ["earthquake", "tremor", "seismic"].any (fun w => strContains disasters_text w) then
    "earthquake"
  else if ["structural", "collapse", "building"].any (fun w => strContains disasters_text w) then
    "structural"
  else if ["chemical", "spill", "hazardous"].any (fun w => strContains disasters_text w) then
    "chemical"
  else if ["gas", "leak", "explosion"].any (fun w => strContains disasters_text w) then
    "gas_leak"
  else "general"

/-- **C10.** `_determine_emergency_type` is total and always returns one of
the seven strings fire, flood, earthquake, structural, chemical, gas_leak,
general; it never returns `medical`; it returns `earthquake` (a value outside
the spec's `EmergencyAssessment` emergency-type enumeration) for the
detected-disaster list `["earthquake"]`; and the empty list maps to
`general`. -/
theorem determine_emergency_type_total (disasters_detected : List String) :
    (determine_emergency_type disasters_detected ∈
      ["fire", "flood", "earthquake", "structural", "chemical", "gas_leak",
       "general"] ∧
     determine_emergency_type disasters_detected ≠ "medical") ∧
    determine_emergency_type [] = "general" ∧
    determine_emergency_type ["earthquake"] = "earthquake" := by
  refine ⟨⟨?_, ?_⟩, rfl, rfl⟩ <;>
    · simp only [determine_emergency_type]
      split_ifs <;> simp

/-! ## C6 — emergency-intent classifier never raises
(`src/vj/core/ai_processor.py`, `analyze_emergency_intent`) -/

/-- Model of the Python slice `s[:n]` (by characters). -/
def pyTake (s : String) (n : Nat) : String := ⟨s.data.take n⟩

/-- The code-fence stripping of `analyze_emergency_intent`
(`src/vj/core/ai_processor.py`, lines 223-231): strip, drop a leading
```` ```json ```` (7 characters) or ```` ``` ```` (3 characters), drop a
trailing ```` ``` ````, strip again. -/
def cleaned_model_text (description : String) : String :=
  let c1 := pyStrip description
  let c2 := if pyStartsWith c1 "```json" then c1.drop 7 else c1
  let c3 := if pyStartsWith c2 "```" then c2.drop 3 else c2
  let c4 := if pyEndsWith c3 "```" then c3.dropRight 3 else c3
  pyStrip c4

/-- The string actually handed to `json.loads` by `analyze_emergency_intent`:
the brace-delimited regex match when one exists, else the whole cleaned
text (`src/vj/core/ai_processor.py`, lines 233-241). -/
def json_candidate (description : String) : String :=
  match extractBraces (cleaned_model_text description) with
  | some json_str => json_str
  | none => cleaned_model_text description

/-- The default assessment dict returned on every failure path of
`analyze_emergency_intent` (`src/vj/core/ai_processor.py`, lines 243-269),
parameterised by its `speak` diagnostic. -/
def default_assessment (speak : String) : JsonObj :=
  [("is_emergency", JVal.bool false),
   ("urgency_level", JVal.str "low"),
   ("detected_hazards", JVal.arr []),
   ("required_action", JVal.str "none"),
   ("emergency_type", JVal.str "none"),
   ("speak", JVal.str speak)]

/-- `AIProcessor.analyze_emergency_intent`
(`src/vj/core/ai_processor.py`, lines 184-270), as a function of the model
reply.  `jsonParse` models `json.loads` (`none` = `json.JSONDecodeError`,
the only exception the inner `try` can see, and it is caught);
`reply = none` models `generate_content` raising, caught by the outer
`except` whose message interpolates the exception text `gen_error`; an empty
reply text takes the `else` branch at lines 243-250.  On a successful parse
the decoded object is returned as-is (not default-filled). -/
def analyze_emergency_intent (jsonParse : String → Option JsonObj)
    (gen_error : String) (reply : Option String) : JsonObj :=
  match reply with
  | none => default_assessment ("Error analyzing emergency intent: " ++ gen_error)
  | some description =>
    if description.isEmpty then default_assessment "No analysis available"
    else
      match extractBraces (cleaned_model_text description) with
      | some json_str =>
        match jsonParse json_str with
        | some result => result
        | none =>
          default_assessment
            ("Analysis completed but parsing failed: " ++
              pyTake description 100 ++ "...")
      | none =>
        match jsonParse (cleaned_model_text description) with
        | some result => result
        | none =>
          default_assessment
            ("Analysis completed but parsing failed: " ++
              pyTake description 100 ++ "...")

/-- **C6.** `analyze_emergency_intent` is a total function of its oracles
(it never raises to its caller), and whenever the model's non-empty text
cannot be parsed into the expected JSON shape — `json.loads` fails on the
extracted candidate — it returns the default assessment with
`is_emergency = false`, `urgency_level = "low"`, empty `detected_hazards`,
and a `speak` field holding the best-effort diagnostic
"Analysis completed but parsing failed: …"
(`src/vj/core/ai_processor.py`, lines 251-260). -/
theorem parse_failure_yields_default (jsonParse : String → Option JsonObj)
    (gen_error description : String)
    (h1 : description.isEmpty = false)
    (h2 : jsonParse (json_candidate description) = none) :
    analyze_emergency_intent jsonParse gen_error (some description) =
      default_assessment
        ("Analysis completed but parsing failed: " ++
          pyTake description 100 ++ "...") ∧
    ∀ s, (default_assessment s).lookup "is_emergency" = some (JVal.bool false) ∧
      (default_assessment s).lookup "urgency_level" = some (JVal.str "low") ∧
      (default_assessment s).lookup "detected_hazards" = some (JVal.arr []) ∧
      (default_assessment s).lookup "speak" = some (JVal.str s) := by
  constructor
  · simp only [analyze_emergency_intent]
    rw [h1]
    simp only [Bool.false_eq_true, if_false]
    cases hb : extractBraces (cleaned_model_text description) with
    | some j =>
      have h2' : jsonParse j = none := by
        unfold json_candidate at h2
        rw [hb] at h2
        exact h2
      simp only [h2']
    | none =>
      have h2' : jsonParse (cleaned_model_text description) = none := by
        unfold json_candidate at h2
        rw [hb] at h2
        exact h2
      simp only [h2']
  · intro s
    exact ⟨rfl, rfl, rfl, rfl⟩

/-- **C6 witness.** A parser that rejects everything, on the non-empty
unparseable reply "hello". -/
theorem parse_failure_yields_default_witness :
    analyze_emergency_intent (fun _ => none) "" (some "hello") =
      default_assessment
        ("Analysis completed but parsing failed: " ++
          pyTake "hello" 100 ++ "...") :=
  (parse_failure_yields_default (fun _ => none) "" "hello" rfl rfl).1

/-! ## C7 — StructuredReply normalization
(`src/vj/core/ai_processor.py`, `_parse_structured_response`) -/

/-- The default response dict of `_parse_structured_response`
(`src/vj/core/ai_processor.py`, lines 144-152 and 162-181), in source
insertion order; its `speak` default is the raw reply text. -/
def default_structured (response_text : String) : JsonObj :=
  [("speak", JVal.str response_text),
   ("action", JVal.str "none"),
   ("direction", JVal.str "none"),
   ("distance", JVal.num 0),
   ("urgency", JVal.str "low"),
   ("hazards_detected", JVal.arr []),
   ("safe_direction", JVal.str "none")]

/-- The newline/carriage-return cleanup applied to the regex match before
`json.loads` (`src/vj/core/ai_processor.py`, line 140). -/
def clean_json_str (m : String) : String :=
  pyReplaceChar (pyReplaceChar m '\n' ' ') '\x0d' ' '

/-- The default-fill loop of `_parse_structured_response`
(`src/vj/core/ai_processor.py`, lines 154-157): keys of the default dict
missing from the parsed object are appended, in default order; present keys
keep their parsed values. -/
def merge_with_defaults (result : JsonObj) (response_text : String) : JsonObj :=
  (default_structured response_text).foldl
    (fun r kv => if (r.lookup kv.1).isSome then r else r ++ [kv]) result

/-- `AIProcessor._parse_structured_response`
(`src/vj/core/ai_processor.py`, lines 130-182).  The regex is applied to the
raw reply; on a match the cleaned candidate is decoded (`jsonParse` models
`json.loads`, `none` = `json.JSONDecodeError`, caught at line 172) and
default-filled; with no match, or on decode failure, the default dict with
`speak` equal to the raw text is returned.  `original_message` is accepted
but unused, as in the source. -/
def parse_structured_response (jsonParse : String → Option JsonObj)
    (response_text original_message : String) : JsonObj :=
  match extractBraces response_text with
  | some m =>
    match jsonParse (clean_json_str m) with
    | some result => merge_with_defaults result response_text
    | none => default_structured response_text
  | none => default_structured response_text

theorem lookup_append_or (l1 l2 : JsonObj) (k : String) :
    (l1 ++ l2).lookup k = (l1.lookup k).or (l2.lookup k) := by
  induction l1 with
  | nil => simp [List.lookup]
  | cons a t ih =>
    obtain ⟨k', v⟩ := a
    by_cases h : k == k'
    · simp [List.lookup, h]
    · simp only [List.cons_append, List.lookup, h]
      exact ih

theorem merge_fold_lookup (ds : JsonObj) (acc : JsonObj) (k : String) :
    (ds.foldl (fun r kv => if (r.lookup kv.1).isSome then r else r ++ [kv])
        acc).lookup k = (acc.lookup k).or (ds.lookup k) := by
  induction ds generalizing acc with
  | nil => cases h : acc.lookup k <;> simp [List.lookup, Option.or, h]
  | cons kv rest ih =>
    obtain ⟨k', v⟩ := kv
    simp only [List.foldl_cons]
    by_cases hks : (acc.lookup k').isSome = true
    · rw [if_pos hks]
      rw [ih]
      by_cases hk : (k == k')
      · have hkk : k = k' := by
          exact beq_iff_eq.mp hk
        subst hkk
        obtain ⟨w, hw⟩ := Option.isSome_iff_exists.mp hks
        rw [hw]
        simp [List.lookup, Option.or]
      · have : List.lookup k ((k', v) :: rest) = rest.lookup k := by
          simp [List.lookup, hk]
        rw [this]
    · rw [if_neg hks]
      rw [ih]
      rw [lookup_append_or]
      by_cases hk : (k == k')
      · have hkk : k = k' := beq_iff_eq.mp hk
        subst hkk
        have hnone : acc.lookup k = none := by
          cases hv : acc.lookup k with
          | none => rfl
          | some w => rw [hv] at hks; simp at hks
        rw [hnone]
        simp [List.lookup, hk, Option.or]
      · have h1 : List.lookup k [(k', v)] = none := by
          simp [List.lookup, hk]
        have h2 : List.lookup k ((k', v) :: rest) = rest.lookup k := by
          simp [List.lookup, hk]
        rw [h1, h2, Option.or_none]

/-- **C7.** For every model reply on a normal chat turn: with no parseable
structured JSON block (no brace-delimited match, or `json.loads` failing on
it), `_parse_structured_response` returns the default dict — `speak` equal to
the raw reply text, `action = "none"`, `direction = "none"`, `distance = 0`,
`urgency = "low"`, empty `hazards_detected`, `safe_direction = "none"` — so
the result is never empty and no field is absent; and when a JSON block is
found and parsed, every key of the result resolves to the parsed value when
present and to the same documented default when missing
(`src/vj/core/ai_processor.py`, lines 130-182). -/
theorem malformed_reply_normalizes (jsonParse : String → Option JsonObj)
    (response_text original_message : String) :
    (extractBraces response_text = none →
      parse_structured_response jsonParse response_text original_message =
        default_structured response_text) ∧
    (∀ m, extractBraces response_text = some m →
      jsonParse (clean_json_str m) = none →
      parse_structured_response jsonParse response_text original_message =
        default_structured response_text) ∧
    (∀ m obj, extractBraces response_text = some m →
      jsonParse (clean_json_str m) = some obj →
      ∀ k, (parse_structured_response jsonParse response_text
          original_message).lookup k =
        (obj.lookup k).or ((default_structured response_text).lookup k)) ∧
    ((default_structured response_text).lookup "speak" =
        some (JVal.str response_text) ∧
      (default_structured response_text).lookup "action" = some (JVal.str "none") ∧
      (default_structured response_text).lookup "direction" = some (JVal.str "none") ∧
      (default_structured response_text).lookup "distance" = some (JVal.num 0) ∧
      (default_structured response_text).lookup "urgency" = some (JVal.str "low") ∧
      (default_structured response_text).lookup "hazards_detected" =
        some (JVal.arr []) ∧
      (default_structured response_text).lookup "safe_direction" =
        some (JVal.str "none")) := by
  refine ⟨?_, ?_, ?_, rfl, rfl, rfl, rfl, rfl, rfl, rfl⟩
  · intro hb
    simp [parse_structured_response, hb]
  · intro m hb hp
    simp [parse_structured_response, hb, hp]
  · intro m obj hb hp k
    simp only [parse_structured_response, hb, hp]
    exact merge_fold_lookup _ obj k

/-- **C7 witness.** A reply with no brace-delimited block normalizes to the
full default dict. -/
theorem malformed_reply_normalizes_witness :
    parse_structured_response (fun _ => none) "hello there" "hi" =
      default_structured "hello there" :=
  (malformed_reply_normalizes (fun _ => none) "hello there" "hi").1 rfl

/-! ## C8 — blank transcription abandons the turn
(`src/vj/core/dwani_bot.py`, `src/sachin/assistant_v4.py`) -/

/-- One iteration of the listening loop of `chat_with_qwen3`
(`src/sachin/assistant_v4.py`, lines 159-203): `transcription = none` models
`record_and_transcribe()` returning `None`; a `None`, empty or
whitespace-only transcription `continue`s, leaving `messages` untouched and
consuming nothing from the Chat trace; otherwise the turn runs
`process_prompt`. -/
def loop_iteration (timeDump : String → String) (imageDump : String)
    (replies : List (Option ChatReply)) (messages : List Msg)
    (transcription : Option String) : List Msg × List (Option ChatReply) :=
  match transcription with
  | none => (messages, replies)
  | some t =>
    if t.isEmpty || pyIsSpace t then (messages, replies)
    else process_prompt timeDump imageDump replies messages t

/-- The classifier verdict as read by `DwaniAIBot.process_voice_command`
(`src/vj/core/dwani_bot.py`, lines 85-87): the `is_emergency`,
`emergency_type` and `urgency_level` values extracted from the
`analyze_emergency_intent` dict via `dict.get` with defaults `False`,
`"unknown"` and `"medium"`. -/
structure Assessment where
  is_emergency : Bool
  emergency_type : String
  urgency_level : String
deriving DecidableEq

/-- One entry of `DwaniAIBot.conversation_history`
(`src/vj/core/dwani_bot.py`, lines 93-113); timestamps are outside the
model and the `output` of a normal voice turn is abstracted to its spoken
`speak` text. -/
structure HistEntry where
  kind : String
  input : String
  output : String
  emergency_type : Option String
  urgency_level : Option String
deriving DecidableEq

/-- `DwaniAIBot.process_voice_command`
(`src/vj/core/dwani_bot.py`, lines 62-128).  `listened` is the
`listen_to_voice()` result; `assessTrace` and `chatTrace` are the oracle
traces of `analyze_emergency_intent` and `process_user_message` (both total,
so an exhausted trace — modelling the outer `except` — leaves the state
unchanged and reports the error result).  Returns the updated history, the
unconsumed traces, and the `(success, response)` pair.  A failed capture
returns before anything runs; an empty or whitespace-only transcription
returns `(False, "No speech detected")` with no turn appended and neither
the classifier nor the chat model invoked. -/
def process_voice_command (geocode : String → Option Coord)
    (directions : Coord → Coord → Option RouteData)
    (assessTrace : List Assessment) (chatTrace : List String)
    (history : List HistEntry) (listened : Bool × String) :
    (List HistEntry × List Assessment × List String) × Bool × String :=
  if !listened.1 then
    ((history, assessTrace, chatTrace), false, "Failed to capture voice input")
  else if listened.2.isEmpty || pyIsSpace listened.2 then
    ((history, assessTrace, chatTrace), false, "No speech detected")
  else
    match assessTrace with
    | [] => ((history, assessTrace, chatTrace), false,
             "Error processing voice command")
    | a :: arest =>
      if a.is_emergency then
        let response := handle_emergency_situation geocode directions
          a.emergency_type a.urgency_level
        ((history ++ [⟨"voice_emergency", listened.2, response,
            some a.emergency_type, some a.urgency_level⟩], arest, chatTrace),
         true, response)
      else
        match chatTrace with
        | [] => ((history, arest, chatTrace), false,
                 "Error processing voice command")
        | speak :: crest =>
          ((history ++ [⟨"voice", listened.2, speak, none, none⟩], arest,
            crest), true, speak)

/-- **C8.** When the transcription of a voice input is empty or
whitespace-only (or, for the `chat_with_qwen3` loop, also `None`), the turn
is abandoned without state corruption: `DwaniAIBot.process_voice_command`
returns `(False, "No speech detected")` with the conversation history and
both oracle traces unchanged — so neither the emergency classifier nor the
chat model is invoked — and one `chat_with_qwen3` loop iteration leaves its
`messages` and its Chat trace untouched, re-entering listening
(`src/vj/core/dwani_bot.py`, lines 69-78; `src/sachin/assistant_v4.py`,
lines 159-162). -/
theorem blank_transcription_abandons_turn (geocode : String → Option Coord)
    (directions : Coord → Coord → Option RouteData)
    (assessTrace : List Assessment) (chatTrace : List String)
    (history : List HistEntry) (timeDump : String → String)
    (imageDump : String) (replies : List (Option ChatReply))
    (messages : List Msg) (t : String)
    (h : (t.isEmpty || pyIsSpace t) = true) :
    process_voice_command geocode directions assessTrace chatTrace history
        (true, t) =
      ((history, assessTrace, chatTrace), false, "No speech detected") ∧
    loop_iteration timeDump imageDump replies messages (some t) =
      (messages, replies) ∧
    loop_iteration timeDump imageDump replies messages none =
      (messages, replies) := by
  refine ⟨?_, ?_, rfl⟩
  · simp [process_voice_command, h]
  · simp [loop_iteration, h]

/-- **C8 witness.** A whitespace-only transcription "   " leaves every
piece of state unchanged in both loops. -/
theorem blank_transcription_abandons_turn_witness :
    process_voice_command (fun _ => none) (fun _ _ => none) [⟨true, "fire", "high"⟩]
        ["ok"] [] (true, "   ") =
      (([], [⟨true, "fire", "high"⟩], ["ok"]), false, "No speech detected") ∧
    loop_iteration (fun _ => "t") "img" [some ⟨"done", []⟩] [] (some "   ") =
      ([], [some ⟨"done", []⟩]) ∧
    loop_iteration (fun _ => "t") "img" [some ⟨"done", []⟩] [] none =
      ([], [some ⟨"done", []⟩]) :=
  blank_transcription_abandons_turn (fun _ => none) (fun _ _ => none)
    [⟨true, "fire", "high"⟩] ["ok"] [] (fun _ => "t") "img"
    [some ⟨"done", []⟩] [] "   " rfl

/-- **C3 amended witness.** One registered tool call appends exactly one
Tool turn, with role `tool` and the tool call's `call_id`. -/
theorem tool_turns_match_registered_calls_witness :
    ((handle_tool_calls (fun _ => "t") "img" []
        [⟨"get_current_time", [("timezone", "Europe/Berlin")], "c9"⟩]).drop
          ([] : List Msg).length).length =
      ([⟨"get_current_time", [("timezone", "Europe/Berlin")], "c9"⟩].filter
        registered_tool).length ∧
    (tool_turn (fun _ => "t") "img"
        ⟨"get_current_time", [("timezone", "Europe/Berlin")], "c9"⟩).role =
      "tool" ∧
    (tool_turn (fun _ => "t") "img"
        ⟨"get_current_time", [("timezone", "Europe/Berlin")], "c9"⟩).tool_call_id =
      some "c9" :=
  ⟨(tool_turns_match_registered_calls (fun _ => "t") "img" []
      [⟨"get_current_time", [("timezone", "Europe/Berlin")], "c9"⟩]).2.1,
   (tool_turns_match_registered_calls (fun _ => "t") "img" []
      [⟨"get_current_time", [("timezone", "Europe/Berlin")], "c9"⟩]).2.2
     ⟨"get_current_time", [("timezone", "Europe/Berlin")], "c9"⟩ (by simp [registered_tool])⟩
